import Mathlib

/-!
Shallow embedding of the social-monitoring pipeline
(src/main_orchestrator.py and src/db_handler.py).

Python exceptions are modelled as an explicit error value carrying the
exception class name (`ty`) and its message (`msg`, what Python's str(e)
yields); fallible code returns `Except PyError`.  Wall-clock reads
(time.time(), datetime.utcnow()) are modelled by a tick counter threaded
through the state.  Calls to external collaborators (collector, ML
processor, database handler, alert manager) are recorded in a call trace
and their outcomes are supplied by an `Env` of injected results, matching
the orchestrator's view of them as opaque fallible calls.
-/

/-- A Python exception: class name and message (str(e)). -/
structure PyError where
  ty : String
  msg : String
deriving Repr, DecidableEq

/-- One entry of PipelineMetrics.errors:
a dict with keys stage, error, timestamp (main_orchestrator.py lines 58-64). -/
structure ErrorEntry where
  stage : String
  error : String
  timestamp : Nat
deriving Repr, DecidableEq

/-- One value of the PipelineMetrics.stage_durations dict: start is set by
start_stage; stop and duration (keys end and duration in the source) are
set by end_stage.  Durations are end - start as integers. -/
structure StageTiming where
  start : Nat
  stop : Option Nat
  duration : Option Int
deriving Repr, DecidableEq

/-- PipelineMetrics (main_orchestrator.py lines 32-83). -/
structure PipelineMetrics where
  start_time : Option Nat
  end_time : Option Nat
  posts_collected : Nat
  posts_processed : Nat
  posts_stored : Nat
  alerts_generated : Nat
  errors : List ErrorEntry
  stage_durations : List (String × StageTiming)
deriving Repr, DecidableEq

namespace PipelineMetrics

/-- PipelineMetrics.__init__. -/
def init : PipelineMetrics :=
  { start_time := none, end_time := none, posts_collected := 0,
    posts_processed := 0, posts_stored := 0, alerts_generated := 0,
    errors := [], stage_durations := [] }

/-- Replace the binding of a key in an association list (dict assignment);
appends when absent. -/
def setKey (l : List (String × StageTiming)) (k : String) (v : StageTiming) :
    List (String × StageTiming) :=
  match l with
  | [] => [(k, v)]
  | (k0, v0) :: rest =>
      if k0 = k then (k, v) :: rest else (k0, v0) :: setKey rest k v

/-- Dict membership test (stage_name in self.stage_durations). -/
def hasKey (l : List (String × StageTiming)) (k : String) : Bool :=
  l.any (fun kv => kv.1 = k)

/-- Dict lookup. -/
def getKey (l : List (String × StageTiming)) (k : String) : Option StageTiming :=
  match l with
  | [] => none
  | (k0, v0) :: rest => if k0 = k then some v0 else getKey rest k

/-- start_stage (lines 45-47): stage_durations[name] = a fresh dict with
only the start key. -/
def start_stage (m : PipelineMetrics) (name : String) (t : Nat) : PipelineMetrics :=
  { m with stage_durations :=
      setKey m.stage_durations name { start := t, stop := none, duration := none } }

/-- end_stage (lines 49-56).  The body is guarded by
`if stage_name in self.stage_durations`; when the guard fails nothing at
all happens — the source contains no logging statement in this method.
The second component is the list of log messages the call emits
(always empty, since the body never logs). -/
def end_stage (m : PipelineMetrics) (name : String) (t : Nat) :
    PipelineMetrics × List String :=
  if hasKey m.stage_durations name then
    match getKey m.stage_durations name with
    | some timing =>
        let timing2 : StageTiming :=
          { start := timing.start, stop := some t,
            duration := some ((t : Int) - (timing.start : Int)) }
        ({ m with stage_durations := setKey m.stage_durations name timing2 }, [])
    | none => (m, [])
  else (m, [])

/-- add_error (lines 58-64): appends a stage/error/timestamp dict. -/
def add_error (m : PipelineMetrics) (stage : String) (err : String) (t : Nat) :
    PipelineMetrics :=
  { m with errors := m.errors ++ [{ stage := stage, error := err, timestamp := t }] }

end PipelineMetrics

/-- The dict returned by PipelineMetrics.get_summary (lines 66-83). -/
structure Summary where
  execution_time : Int
  start_time : Option Nat
  end_time : Option Nat
  posts_collected : Nat
  posts_processed : Nat
  posts_stored : Nat
  alerts_generated : Nat
  error_count : Nat
  errors : List ErrorEntry
  stage_durations : List (String × Int)
deriving Repr, DecidableEq

/-- get_summary (lines 66-83): execution_time is end - start when both are
set, else 0; stage_durations maps each stage to v.get(duration, 0). -/
def PipelineMetrics.get_summary (m : PipelineMetrics) : Summary :=
  { execution_time :=
      match m.end_time, m.start_time with
      | some e, some s => (e : Int) - (s : Int)
      | _, _ => 0,
    start_time := m.start_time,
    end_time := m.end_time,
    posts_collected := m.posts_collected,
    posts_processed := m.posts_processed,
    posts_stored := m.posts_stored,
    alerts_generated := m.alerts_generated,
    error_count := m.errors.length,
    errors := m.errors,
    stage_durations := m.stage_durations.map
      (fun kv => (kv.1, kv.2.duration.getD 0)) }

/-! ## Data model (db_handler.py) -/

/-- A raw post dict as passed to DatabaseHandler.insert_raw_posts
(fields read at db_handler.py lines 202-218; SocialPost via asdict). -/
structure RawPost where
  post_id : String
  platform : String
  title : String
  content : String
  author : String
  created_utc : Int
  url : String
  score : Int
  num_comments : Int
  subreddit : String
  keywords_matched : List String
  collected_at : Nat
deriving Repr, DecidableEq

/-- A processed post dict as read by insert_processed_posts
(db_handler.py lines 261-274) and by the orchestrator's alert stage. -/
structure ProcessedPost where
  post_id : String
  sentiment_label : String
  sentiment_score : Int
  topics : List String
  entities : List (String × String)
  processed_at : Nat
  alert_triggered : Bool
  alert_reasons : List String
deriving Repr, DecidableEq

/-- A row of social_monitoring.processed_posts (model_version stamped by
insert_processed_posts). -/
structure ProcessedRow where
  post : ProcessedPost
  model_version : String
deriving Repr, DecidableEq

/-- A row of social_monitoring.alerts. -/
structure AlertRow where
  id : Nat
  post_id : String
  alert_type : String
  severity : String
  message : String
  reasons : List String
  triggered_at : Nat
  acknowledged : Bool
deriving Repr, DecidableEq

/-- A row of social_monitoring.pipeline_metrics. -/
structure MetricRow where
  metric_name : String
  metric_value : Int
  metric_metadata : List (String × String)
deriving Repr, DecidableEq

/-- The state owned by a DatabaseHandler: the four committed tables, a
schema flag, and the number of connections currently checked out of the
SimpleConnectionPool(1, 20). -/
structure DbState where
  schema_ready : Bool
  raw_posts : List RawPost
  processed_posts : List ProcessedRow
  alerts : List AlertRow
  pipeline_metrics : List MetricRow
  held : Nat
deriving Repr, DecidableEq

namespace DatabaseHandler

/-- get_connection (db_handler.py lines 151-153): pool.getconn checks a
connection out of the bounded pool (max 20); it raises PoolError when the
pool is exhausted. -/
def get_connection (db : DbState) : Except PyError DbState :=
  if db.held ≥ 20 then Except.error { ty := "PoolError", msg := "connection pool exhausted" }
  else Except.ok { db with held := db.held + 1 }

/-- return_connection (lines 155-157): pool.putconn checks a connection
back in. -/
def return_connection (db : DbState) : DbState :=
  { db with held := db.held - 1 }

/-- Whether the uncommitted raw_posts working set already holds a row with
this post_id (the UNIQUE constraint consulted by ON CONFLICT (post_id)). -/
def hasId (store : List RawPost) (pid : String) : Bool :=
  store.any (fun q => q.post_id = pid)

/-- One INSERT ... ON CONFLICT (post_id) DO NOTHING against the
transaction's working set: affects 0 rows on conflict, 1 otherwise. -/
def rawInsertOne (store : List RawPost) (p : RawPost) : Nat × List RawPost :=
  if hasId store p.post_id then (0, store) else (1, store ++ [p])

/-- The batch of INSERT statements issued by execute_batch inside
insert_raw_posts (lines 194-221), run against the transaction-local
working set; `fault` injects a non-conflict error (e.g. a constraint
violation) raised while executing a particular record's statement, which
aborts the batch.  psycopg2's execute_batch joins the mogrified
statements into pages and executes each page as one multi-statement
call, so cursor.rowcount afterwards holds only the affected count of the
LAST statement executed (0 or 1 for these INSERTs), not a batch total;
when the batch is empty no statement runs and the fresh cursor's
rowcount stays -1.  Returns that rowcount together with the working
set. -/
def execBatchRaw (fault : RawPost → Option PyError) :
    List RawPost → List RawPost → Except PyError (Int × List RawPost)
  | store, [] => Except.ok (-1, store)
  | store, p :: rest =>
      match fault p with
      | some e => Except.error e
      | none =>
          let step := rawInsertOne store p
          if rest.isEmpty then Except.ok ((step.1 : Int), step.2)
          else execBatchRaw fault step.2 rest

/-- insert_raw_posts (db_handler.py lines 177-234): acquire a connection,
execute the batch in one transaction, set inserted_count from
cursor.rowcount — which after execute_batch is only the last statement's
affected count, see execBatchRaw — commit; on any exception roll the
transaction back and re-raise the caught exception itself (the bare
`raise` at line 229); the finally block returns the connection when one
was acquired. -/
def insert_raw_posts (fault : RawPost → Option PyError) (db : DbState)
    (posts : List RawPost) : Except PyError Int × DbState :=
  match get_connection db with
  | Except.error e => (Except.error e, db)
  | Except.ok db1 =>
      match execBatchRaw fault db.raw_posts posts with
      | Except.error e => (Except.error e, return_connection db1)
      | Except.ok nm =>
          (Except.ok nm.1, return_connection { db1 with raw_posts := nm.2 })

/-- The batch of plain INSERTs issued by insert_processed_posts (no
conflict clause, every statement affects one row); `fault` injects an
error raised at a particular record.  As in execBatchRaw, the rowcount
left on the cursor by execute_batch is the last statement's affected
count (1 for any nonempty batch), or -1 when the batch was empty. -/
def execBatchProcessed (fault : ProcessedPost → Option PyError)
    (model_version : String) :
    List ProcessedRow → List ProcessedPost → Except PyError (Int × List ProcessedRow)
  | store, [] => Except.ok (-1, store)
  | store, p :: rest =>
      match fault p with
      | some e => Except.error e
      | none =>
          let store2 := store ++ [{ post := p, model_version := model_version }]
          if rest.isEmpty then Except.ok (1, store2)
          else execBatchProcessed fault model_version store2 rest

/-- insert_processed_posts (db_handler.py lines 236-290): same
acquire / single transaction / rollback-and-re-raise / finally-release
shape as insert_raw_posts (including the last-statement rowcount);
stamps model_version on every row. -/
def insert_processed_posts (fault : ProcessedPost → Option PyError)
    (db : DbState) (posts : List ProcessedPost) (model_version : String) :
    Except PyError Int × DbState :=
  match get_connection db with
  | Except.error e => (Except.error e, db)
  | Except.ok db1 =>
      match execBatchProcessed fault model_version db.processed_posts posts with
      | Except.error e => (Except.error e, return_connection db1)
      | Except.ok nm =>
          (Except.ok nm.1, return_connection { db1 with processed_posts := nm.2 })

/-- insert_alert (db_handler.py lines 292-339): single-row insert,
RETURNING the SERIAL id; triggered_at is datetime.utcnow() at call time
(`now`); rollback and re-raise on failure, release in finally. -/
def insert_alert (fault : Option PyError) (db : DbState) (post_id : String)
    (alert_type : String) (severity : String) (message : String)
    (reasons : List String) (now : Nat) : Except PyError Nat × DbState :=
  match get_connection db with
  | Except.error e => (Except.error e, db)
  | Except.ok db1 =>
      match fault with
      | some e => (Except.error e, return_connection db1)
      | none =>
          let newId := db.alerts.length + 1
          let row : AlertRow :=
            { id := newId, post_id := post_id, alert_type := alert_type,
              severity := severity, message := message, reasons := reasons,
              triggered_at := now, acknowledged := false }
          (Except.ok newId, return_connection { db1 with alerts := db.alerts ++ [row] })

/-- record_metric (db_handler.py lines 341-375): single-row insert into
pipeline_metrics; the except clause logs and rolls back but contains no
`raise`, so every exception is swallowed and the call returns normally;
the finally block releases the connection when one was acquired. -/
def record_metric (fault : Option PyError) (db : DbState)
    (metric_name : String) (metric_value : Int)
    (metadata : List (String × String)) : Except PyError Unit × DbState :=
  match get_connection db with
  | Except.error _ => (Except.ok (), db)
  | Except.ok db1 =>
      match fault with
      | some _ => (Except.ok (), return_connection db1)
      | none =>
          let row : MetricRow :=
            { metric_name := metric_name, metric_value := metric_value,
              metric_metadata := metadata }
          (Except.ok (), return_connection { db1 with pipeline_metrics := db.pipeline_metrics ++ [row] })

/-- get_unacknowledged_alerts (db_handler.py lines 377-404): join of
unacknowledged alerts with their raw post, ordered by triggered_at
descending; on any exception it logs and returns the alerts list built so
far (the initial empty list); the finally block releases the connection
when one was acquired. -/
def get_unacknowledged_alerts (fault : Option PyError) (db : DbState) :
    List (AlertRow × RawPost) × DbState :=
  match get_connection db with
  | Except.error _ => ([], db)
  | Except.ok db1 =>
      match fault with
      | some _ => ([], return_connection db1)
      | none =>
          let joined := db.alerts.filterMap (fun a =>
            if a.acknowledged then none
            else match db.raw_posts.find? (fun r => r.post_id = a.post_id) with
              | some r => some (a, r)
              | none => none)
          let sorted := joined.mergeSort (fun x y => x.1.triggered_at ≥ y.1.triggered_at)
          (sorted, return_connection db1)

/-- init_schema (db_handler.py lines 159-175): executes the DDL script,
commits; on failure rolls back and re-raises; finally releases the
connection when one was acquired. -/
def init_schema (fault : Option PyError) (db : DbState) :
    Except PyError Unit × DbState :=
  match get_connection db with
  | Except.error e => (Except.error e, db)
  | Except.ok db1 =>
      match fault with
      | some e => (Except.error e, return_connection db1)
      | none => (Except.ok (), return_connection { db1 with schema_ready := true })

end DatabaseHandler

/-! ## Orchestrator (main_orchestrator.py) -/

/-- One invocation of an external collaborator by the orchestrator, in
program order. -/
inductive Call where
  | collect
  | process
  | insertRaw
  | insertProcessed
  | processAlerts
  | recordMetric (name : String)
deriving Repr, DecidableEq

/-- Injected outcomes of the collaborator calls the orchestrator makes:
collector.collect_posts, ml_processor.process_posts,
db_handler.insert_raw_posts, db_handler.insert_processed_posts,
alert_manager.process_alerts, db_handler.record_metric (per metric name;
record_metric in fact never raises, but the orchestrator guards against
it anyway). -/
structure Env where
  collect : Except PyError (List RawPost)
  process : Except PyError (List ProcessedPost)
  insertRaw : Except PyError Nat
  insertProcessed : Except PyError Nat
  processAlerts : Except PyError Unit
  recordMetric : String → Except PyError Unit

/-- Orchestrator-visible world: the metrics accumulator, the tick clock
(each time.time() / datetime.utcnow() read returns the current tick and
advances it), the trace of collaborator calls made, and the content of
pipeline_summary.json once _print_summary has written it. -/
structure World where
  metrics : PipelineMetrics
  now : Nat
  calls : List Call
  summaryFile : Option Summary
deriving Repr, DecidableEq

/-- A fresh pipeline's world: PipelineMetrics() plus an arbitrary clock
origin, no calls made, no summary file written. -/
def initWorld (t0 : Nat) : World :=
  { metrics := PipelineMetrics.init, now := t0, calls := [], summaryFile := none }

namespace Pipeline

/-- One wall-clock read: returns the current tick and advances the clock. -/
def tick (w : World) : Nat × World :=
  (w.now, { w with now := w.now + 1 })

/-- Append a collaborator call to the trace. -/
def emit (w : World) (c : Call) : World :=
  { w with calls := w.calls ++ [c] }

/-- Apply a function to the metrics field. -/
def mapMetrics (w : World) (f : PipelineMetrics → PipelineMetrics) : World :=
  { w with metrics := f w.metrics }

/-- _collect_data (main_orchestrator.py lines 182-216): start_stage
collection; call the collector; on success set posts_collected; on
exception add_error collection and re-raise; finally end_stage; return
the collected posts. -/
def collectData (env : Env) (w : World) :
    Except PyError (List RawPost) × World :=
  let s1 := tick w
  let w1 := mapMetrics s1.2 (fun m => m.start_stage "collection" s1.1)
  let w2 := emit w1 Call.collect
  match env.collect with
  | Except.ok posts =>
      let w3 := mapMetrics w2 (fun m => { m with posts_collected := posts.length })
      let s2 := tick w3
      let w4 := mapMetrics s2.2 (fun m => (m.end_stage "collection" s2.1).1)
      (Except.ok posts, w4)
  | Except.error e =>
      let s2 := tick w2
      let w3 := mapMetrics s2.2 (fun m => m.add_error "collection" e.msg s2.1)
      let s3 := tick w3
      let w4 := mapMetrics s3.2 (fun m => (m.end_stage "collection" s3.1).1)
      (Except.error e, w4)

/-- _process_data (lines 218-253): start_stage processing; call the ML
processor; on success set posts_processed; on exception add_error
processing and re-raise; finally end_stage. -/
def processData (env : Env) (w : World) :
    Except PyError (List ProcessedPost) × World :=
  let s1 := tick w
  let w1 := mapMetrics s1.2 (fun m => m.start_stage "processing" s1.1)
  let w2 := emit w1 Call.process
  match env.process with
  | Except.ok posts =>
      let w3 := mapMetrics w2 (fun m => { m with posts_processed := posts.length })
      let s2 := tick w3
      let w4 := mapMetrics s2.2 (fun m => (m.end_stage "processing" s2.1).1)
      (Except.ok posts, w4)
  | Except.error e =>
      let s2 := tick w2
      let w3 := mapMetrics s2.2 (fun m => m.add_error "processing" e.msg s2.1)
      let s3 := tick w3
      let w4 := mapMetrics s3.2 (fun m => (m.end_stage "processing" s3.1).1)
      (Except.error e, w4)

/-- _store_data (lines 255-283): start_stage storage; insert_raw_posts
then insert_processed_posts; on success set posts_stored to the raw
count; on exception from either call add_error storage and re-raise;
finally end_stage. -/
def storeData (env : Env) (w : World) : Except PyError Unit × World :=
  let s1 := tick w
  let w1 := mapMetrics s1.2 (fun m => m.start_stage "storage" s1.1)
  let w2 := emit w1 Call.insertRaw
  match env.insertRaw with
  | Except.error e =>
      let s2 := tick w2
      let w3 := mapMetrics s2.2 (fun m => m.add_error "storage" e.msg s2.1)
      let s3 := tick w3
      let w4 := mapMetrics s3.2 (fun m => (m.end_stage "storage" s3.1).1)
      (Except.error e, w4)
  | Except.ok raw_count =>
      let w3 := emit w2 Call.insertProcessed
      match env.insertProcessed with
      | Except.error e =>
          let s2 := tick w3
          let w4 := mapMetrics s2.2 (fun m => m.add_error "storage" e.msg s2.1)
          let s3 := tick w4
          let w5 := mapMetrics s3.2 (fun m => (m.end_stage "storage" s3.1).1)
          (Except.error e, w5)
      | Except.ok _ =>
          let w4 := mapMetrics w3 (fun m => { m with posts_stored := raw_count })
          let s2 := tick w4
          let w5 := mapMetrics s2.2 (fun m => (m.end_stage "storage" s2.1).1)
          (Except.ok (), w5)

/-- _generate_alerts (lines 285-309): start_stage alerts; call
alert_manager.process_alerts; on success set alerts_generated to the
number of processed posts with alert_triggered; on exception add_error
alerts and do NOT re-raise (the except clause has no raise); finally
end_stage.  Never raises. -/
def generateAlerts (env : Env) (processed : List ProcessedPost) (w : World) : World :=
  let s1 := tick w
  let w1 := mapMetrics s1.2 (fun m => m.start_stage "alerts" s1.1)
  let w2 := emit w1 Call.processAlerts
  match env.processAlerts with
  | Except.ok _ =>
      let alert_count := (processed.filter (fun p => p.alert_triggered)).length
      let w3 := mapMetrics w2 (fun m => { m with alerts_generated := alert_count })
      let s2 := tick w3
      mapMetrics s2.2 (fun m => (m.end_stage "alerts" s2.1).1)
  | Except.error e =>
      let s2 := tick w2
      let w3 := mapMetrics s2.2 (fun m => m.add_error "alerts" e.msg s2.1)
      let s3 := tick w3
      mapMetrics s3.2 (fun m => (m.end_stage "alerts" s3.1).1)

/-- The five record_metric calls of _record_metrics in order (lines
320-324); a failing call aborts the remaining ones (the exception jumps
to the except clause). -/
def runMetricCalls (env : Env) : World → List String → World
  | w, [] => w
  | w, n :: rest =>
      let w1 := emit w (Call.recordMetric n)
      match env.recordMetric n with
      | Except.ok _ => runMetricCalls env w1 rest
      | Except.error _ => w1

/-- _record_metrics (lines 311-330): computes get_summary, records five
named metrics; the except clause logs and does NOT re-raise.  Never
raises. -/
def recordMetricsStage (env : Env) (w : World) : World :=
  runMetricCalls env w
    ["posts_collected", "posts_processed", "alerts_generated",
     "execution_time", "error_count"]

/-- _print_summary (lines 332-359): computes get_summary, logs it, and
writes it to pipeline_summary.json (overwriting any prior file). -/
def printSummary (w : World) : World :=
  { w with summaryFile := some w.metrics.get_summary }

/-- The body of run's try block (lines 144-170): collect; short-circuit
on empty; process; short-circuit on empty; store; alerts; metrics. -/
def runBody (env : Env) (w : World) : Except PyError Unit × World :=
  match collectData env w with
  | (Except.error e, w1) => (Except.error e, w1)
  | (Except.ok raws, w1) =>
      if raws.isEmpty then (Except.ok (), w1)
      else
        match processData env w1 with
        | (Except.error e, w2) => (Except.error e, w2)
        | (Except.ok procs, w2) =>
            if procs.isEmpty then (Except.ok (), w2)
            else
              match storeData env w2 with
              | (Except.error e, w3) => (Except.error e, w3)
              | (Except.ok _, w3) =>
                  let w4 := generateAlerts env procs w3
                  let w5 := recordMetricsStage env w4
                  (Except.ok (), w5)

/-- run (main_orchestrator.py lines 136-180): stamp start_time; run the
try body; the except clause appends a pipeline error entry and re-raises;
the finally clause stamps end_time and calls _print_summary on every
path. -/
def run (env : Env) (w : World) : Except PyError Unit × World :=
  let s0 := tick w
  let w0 := mapMetrics s0.2 (fun m => { m with start_time := some s0.1 })
  let body := runBody env w0
  let afterExcept :=
    match body with
    | (Except.ok _, w1) => (Except.ok (), w1)
    | (Except.error e, w1) =>
        let s1 := tick w1
        (Except.error e, mapMetrics s1.2 (fun m => m.add_error "pipeline" e.msg s1.1))
  let s2 := tick afterExcept.2
  let w2 := mapMetrics s2.2 (fun m => { m with end_time := some s2.1 })
  (afterExcept.1, printSummary w2)

/-- main (main_orchestrator.py lines 374-389), given an initialized
pipeline: runs it and returns 0, or returns 1 when any exception
propagates out of run. -/
def mainExit (env : Env) (w : World) : Nat × World :=
  match run env w with
  | (Except.ok _, w1) => (0, w1)
  | (Except.error _, w1) => (1, w1)

end Pipeline

/-! ## Concrete sample data (used by witnesses and counterexamples) -/

/-- A concrete raw post. -/
def postA : RawPost :=
  { post_id := "p1", platform := "reddit", title := "outage mega-thread",
    content := "service is down", author := "alice", created_utc := 1700000000,
    url := "https://example.org/p1", score := 42, num_comments := 7,
    subreddit := "sysadmin", keywords_matched := ["outage"],
    collected_at := 1700000100 }

/-- A second raw post with a distinct identifier. -/
def postB : RawPost := { postA with post_id := "p2" }

/-- A malformed raw post used to force a mid-batch non-conflict error. -/
def postBad : RawPost := { postA with post_id := "bad" }

/-- A concrete processed post with the alert flag set. -/
def procA : ProcessedPost :=
  { post_id := "p1", sentiment_label := "negative", sentiment_score := -87,
    topics := ["outage"], entities := [("example", "ORG")],
    processed_at := 1700000200, alert_triggered := true,
    alert_reasons := ["negative sentiment"] }

/-- A database-layer exception as the driver raises it. -/
def errDb : PyError := { ty := "OperationalError", msg := "connection refused" }

/-- A mid-batch constraint violation distinct from the conflict-skip. -/
def errBatch : PyError :=
  { ty := "NotNullViolation", msg := "null value in column content" }

/-- An environment in which every collaborator call succeeds. -/
def envHappy : Env :=
  { collect := Except.ok [postA, postB], process := Except.ok [procA],
    insertRaw := Except.ok 2, insertProcessed := Except.ok 1,
    processAlerts := Except.ok (),
    recordMetric := fun _ => Except.ok () }

/-- envHappy with an empty collection result. -/
def envNoPosts : Env := { envHappy with collect := Except.ok [] }

/-- envHappy with a failing storage stage. -/
def envStorageDown : Env := { envHappy with insertRaw := Except.error errDb }

/-- envHappy with a failing alerting stage. -/
def envAlertsDown : Env := { envHappy with processAlerts := Except.error errDb }

/-- A database state already holding postA, with no connection checked out. -/
def dbOne : DbState :=
  { schema_ready := true, raw_posts := [postA], processed_posts := [],
    alerts := [], pipeline_metrics := [], held := 0 }

/-- Fault injection that fails the statement for the malformed record. -/
def batchFault : RawPost → Option PyError :=
  fun p => if p.post_id = "bad" then some errBatch else none

/-! ## Helper lemmas -/

/-- _record_metrics leaves the metrics accumulator untouched: the five
record_metric calls only talk to the database handler. -/
theorem runMetricCalls_metrics (env : Env) (names : List String) (w : World) :
    (Pipeline.runMetricCalls env w names).metrics = w.metrics := by
  induction names generalizing w with
  | nil => simp [Pipeline.runMetricCalls]
  | cons n rest ih =>
      simp only [Pipeline.runMetricCalls, Pipeline.emit]
      cases env.recordMetric n with
      | ok _ => simpa using ih { w with calls := w.calls ++ [Call.recordMetric n] }
      | error e => simp

/-- _record_metrics does not write the summary artifact. -/
theorem runMetricCalls_summaryFile (env : Env) (names : List String) (w : World) :
    (Pipeline.runMetricCalls env w names).summaryFile = w.summaryFile := by
  induction names generalizing w with
  | nil => simp [Pipeline.runMetricCalls]
  | cons n rest ih =>
      simp only [Pipeline.runMetricCalls, Pipeline.emit]
      cases env.recordMetric n with
      | ok _ => simpa using ih { w with calls := w.calls ++ [Call.recordMetric n] }
      | error e => simp

/-- _record_metrics reads no orchestrator clock. -/
theorem runMetricCalls_now (env : Env) (names : List String) (w : World) :
    (Pipeline.runMetricCalls env w names).now = w.now := by
  induction names generalizing w with
  | nil => simp [Pipeline.runMetricCalls]
  | cons n rest ih =>
      simp only [Pipeline.runMetricCalls, Pipeline.emit]
      cases env.recordMetric n with
      | ok _ => simpa using ih { w with calls := w.calls ++ [Call.recordMetric n] }
      | error e => simp

/-- _record_metrics only appends to the call trace. -/
theorem runMetricCalls_calls_sub (env : Env) (names : List String) (w : World)
    (c : Call) (h : c ∈ w.calls) :
    c ∈ (Pipeline.runMetricCalls env w names).calls := by
  induction names generalizing w with
  | nil => simpa [Pipeline.runMetricCalls] using h
  | cons n rest ih =>
      simp only [Pipeline.runMetricCalls, Pipeline.emit]
      cases env.recordMetric n with
      | ok _ => exact ih { w with calls := w.calls ++ [Call.recordMetric n] } (by simp [h])
      | error e => simp [h]

/-- The first record_metric call of _record_metrics always lands in the
trace, whatever the outcomes are. -/
theorem runMetricCalls_head_mem (env : Env) (n : String) (rest : List String)
    (w : World) :
    Call.recordMetric n ∈ (Pipeline.runMetricCalls env w (n :: rest)).calls := by
  simp only [Pipeline.runMetricCalls, Pipeline.emit]
  cases env.recordMetric n with
  | ok _ => exact runMetricCalls_calls_sub env rest _ _ (by simp)
  | error e => simp

/-- The outcome run propagates to its caller does not depend on the
record_metric outcomes (the metrics stage swallows its failures). -/
theorem run_fst_indep (env : Env) (g : String → Except PyError Unit) (w : World) :
    (Pipeline.run { env with recordMetric := g } w).1 = (Pipeline.run env w).1 := by
  obtain ⟨c, p, ir, ip, pa, rm⟩ := env
  cases c with
  | error e => rfl
  | ok raws =>
      cases raws with
      | nil => rfl
      | cons r rs =>
          cases p with
          | error e => rfl
          | ok procs =>
              cases procs with
              | nil => rfl
              | cons q qs =>
                  cases ir with
                  | error e => rfl
                  | ok nr =>
                      cases ip with
                      | error e => rfl
                      | ok np => cases pa <;> rfl

/-- An aborted batch always originates in a record whose statement raised:
execBatchRaw fails only with a fault of one of its inputs, unchanged. -/
theorem execBatchRaw_error_cause (fault : RawPost → Option PyError)
    (posts : List RawPost) : ∀ store e,
    DatabaseHandler.execBatchRaw fault store posts = Except.error e →
    ∃ p ∈ posts, fault p = some e := by
  induction posts with
  | nil => intro store e h; simp [DatabaseHandler.execBatchRaw] at h
  | cons p rest ih =>
      intro store e h
      simp only [DatabaseHandler.execBatchRaw] at h
      cases hf : fault p with
      | some e2 =>
          rw [hf] at h
          have he : e2 = e := by simpa using h
          exact ⟨p, List.mem_cons_self p rest, by rw [hf, he]⟩
      | none =>
          rw [hf] at h
          by_cases hrest : rest.isEmpty
          · rw [if_pos hrest] at h
            simp at h
          · rw [if_neg hrest] at h
            obtain ⟨p2, hp2, hfp2⟩ := ih _ _ h
            exact ⟨p2, List.mem_cons_of_mem p hp2, hfp2⟩

/-! ## Claims -/

/-- C6: For every run, regardless of which stage the run terminated in
(including fatal failure and zero-input short-circuit), finalization
always executes: the end timestamp is stamped, the summary is computed,
and the summary artifact file is written with exactly that summary. -/
theorem c6_finalize_always_runs (env : Env) (t0 : Nat) :
    ((Pipeline.run env (initWorld t0)).2).metrics.end_time.isSome = true ∧
    ((Pipeline.run env (initWorld t0)).2).summaryFile =
      some ((Pipeline.run env (initWorld t0)).2).metrics.get_summary := by
  unfold Pipeline.run
  rcases hb : Pipeline.runBody env
    (Pipeline.mapMetrics (Pipeline.tick (initWorld t0)).2
      (fun m => { m with start_time := some (Pipeline.tick (initWorld t0)).1 })) with ⟨res, w1⟩
  cases res <;>
    simp [Pipeline.printSummary, Pipeline.mapMetrics, Pipeline.tick, hb]

/-- C5: For every run in which the collection stage returns an empty
list, the run short-circuits as a successful no-op: the summary shows
posts_collected = 0 and posts_processed = 0, no collaborator beyond the
collector is called (in particular no storage, alerting or
metrics-recording call), the summary artifact is still written, and the
process exits 0. -/
theorem c5_zero_input_short_circuit (env : Env) (t0 : Nat)
    (h : env.collect = Except.ok []) :
    (Pipeline.run env (initWorld t0)).1 = Except.ok () ∧
    ((Pipeline.run env (initWorld t0)).2.metrics.get_summary).posts_collected = 0 ∧
    ((Pipeline.run env (initWorld t0)).2.metrics.get_summary).posts_processed = 0 ∧
    (Pipeline.run env (initWorld t0)).2.calls = [Call.collect] ∧
    (Pipeline.run env (initWorld t0)).2.summaryFile.isSome = true ∧
    (Pipeline.mainExit env (initWorld t0)).1 = 0 := by
  simp [Pipeline.run, Pipeline.runBody, Pipeline.collectData, Pipeline.mainExit,
    Pipeline.tick, Pipeline.mapMetrics, Pipeline.emit, Pipeline.printSummary,
    h, initWorld, PipelineMetrics.init, PipelineMetrics.start_stage,
    PipelineMetrics.end_stage, PipelineMetrics.get_summary,
    PipelineMetrics.setKey, PipelineMetrics.hasKey, PipelineMetrics.getKey]

/-- Witness for C5 at the concrete environment envNoPosts. -/
theorem c5_zero_input_short_circuit_witness :
    envNoPosts.collect = Except.ok [] ∧
    ((Pipeline.run envNoPosts (initWorld 0)).2.metrics.get_summary).posts_collected = 0 ∧
    (Pipeline.mainExit envNoPosts (initWorld 0)).1 = 0 :=
  ⟨rfl, (c5_zero_input_short_circuit envNoPosts 0 rfl).2.1,
    (c5_zero_input_short_circuit envNoPosts 0 rfl).2.2.2.2.2⟩

/-- C2: For every run that reaches the alerting stage (collection,
processing and both storage inserts succeeded on nonempty data), an
exception raised inside the alerting stage is caught at the stage
boundary, appended to the summary's error list under stage alerts, never
re-raised (run returns normally), the metrics-recording stage still
executes (its first record_metric call is in the trace), and the process
exits 0. -/
theorem c2_alerting_nonfatal (env : Env) (t0 : Nat) (r : RawPost)
    (rs : List RawPost) (q : ProcessedPost) (qs : List ProcessedPost)
    (nr np : Nat) (e : PyError)
    (h1 : env.collect = Except.ok (r :: rs))
    (h2 : env.process = Except.ok (q :: qs))
    (h3 : env.insertRaw = Except.ok nr)
    (h4 : env.insertProcessed = Except.ok np)
    (h5 : env.processAlerts = Except.error e) :
    (Pipeline.run env (initWorld t0)).1 = Except.ok () ∧
    (∃ t, { stage := "alerts", error := e.msg, timestamp := t : ErrorEntry } ∈
        (Pipeline.run env (initWorld t0)).2.metrics.errors) ∧
    Call.recordMetric "posts_collected" ∈ (Pipeline.run env (initWorld t0)).2.calls ∧
    (Pipeline.mainExit env (initWorld t0)).1 = 0 := by
  simp only [Pipeline.run, Pipeline.runBody, Pipeline.collectData, Pipeline.processData,
    Pipeline.storeData, Pipeline.generateAlerts, Pipeline.recordMetricsStage,
    Pipeline.mainExit, Pipeline.tick, Pipeline.mapMetrics, Pipeline.emit,
    Pipeline.printSummary, h1, h2, h3, h4, h5, List.isEmpty_cons,
    runMetricCalls_metrics, runMetricCalls_summaryFile, runMetricCalls_now]
  refine ⟨rfl, ⟨t0 + 1 + 1 + 1 + 1 + 1 + 1 + 1 + 1, ?_⟩, ?_, rfl⟩
  · simp [runMetricCalls_metrics, PipelineMetrics.add_error, PipelineMetrics.start_stage,
      PipelineMetrics.end_stage, initWorld, PipelineMetrics.init,
      PipelineMetrics.setKey, PipelineMetrics.hasKey, PipelineMetrics.getKey]
  · exact runMetricCalls_head_mem env "posts_collected" _ _

/-- Witness for C2 at the concrete environment envAlertsDown. -/
theorem c2_alerting_nonfatal_witness :
    envAlertsDown.collect = Except.ok (postA :: [postB]) ∧
    envAlertsDown.process = Except.ok (procA :: []) ∧
    envAlertsDown.insertRaw = Except.ok 2 ∧
    envAlertsDown.insertProcessed = Except.ok 1 ∧
    envAlertsDown.processAlerts = Except.error errDb ∧
    ((Pipeline.run envAlertsDown (initWorld 0)).1 = Except.ok () ∧
      (Pipeline.mainExit envAlertsDown (initWorld 0)).1 = 0) :=
  ⟨rfl, rfl, rfl, rfl, rfl,
    (c2_alerting_nonfatal envAlertsDown 0 postA [postB] procA [] 2 1 errDb
      rfl rfl rfl rfl rfl).1,
    (c2_alerting_nonfatal envAlertsDown 0 postA [postB] procA [] 2 1 errDb
      rfl rfl rfl rfl rfl).2.2.2⟩

/-- C1: For every run in which the storage stage raises (either database
insert fails) after nonempty collection and processing, the run is
aborted: the alerting and metrics-recording collaborators are never
called, the error is recorded in the run summary under stage storage, the
exception is re-raised after finalization (end time stamped and summary
artifact written, yet run still returns the error), and the process exits
1; conversely any run whose run() returns normally exits 0. -/
theorem c1_storage_failure_fatal (env : Env) (t0 : Nat) (r : RawPost)
    (rs : List RawPost) (q : ProcessedPost) (qs : List ProcessedPost) (e : PyError)
    (h1 : env.collect = Except.ok (r :: rs))
    (h2 : env.process = Except.ok (q :: qs))
    (h3 : env.insertRaw = Except.error e ∨
          ∃ n, env.insertRaw = Except.ok n ∧ env.insertProcessed = Except.error e) :
    (Pipeline.run env (initWorld t0)).1 = Except.error e ∧
    Call.processAlerts ∉ (Pipeline.run env (initWorld t0)).2.calls ∧
    (∀ name, Call.recordMetric name ∉ (Pipeline.run env (initWorld t0)).2.calls) ∧
    (∃ t, { stage := "storage", error := e.msg, timestamp := t : ErrorEntry } ∈
        (Pipeline.run env (initWorld t0)).2.metrics.errors) ∧
    (Pipeline.run env (initWorld t0)).2.metrics.end_time.isSome = true ∧
    (Pipeline.run env (initWorld t0)).2.summaryFile.isSome = true ∧
    (Pipeline.mainExit env (initWorld t0)).1 = 1 ∧
    (∀ env2 : Env, (Pipeline.run env2 (initWorld t0)).1 = Except.ok () →
        (Pipeline.mainExit env2 (initWorld t0)).1 = 0) := by
  have hconv : ∀ env2 : Env, (Pipeline.run env2 (initWorld t0)).1 = Except.ok () →
      (Pipeline.mainExit env2 (initWorld t0)).1 = 0 := by
    intro env2 hok
    unfold Pipeline.mainExit
    rcases hr : Pipeline.run env2 (initWorld t0) with ⟨res, w1⟩
    rw [hr] at hok
    simp only at hok
    subst hok
    simp
  rcases h3 with h3 | ⟨n, h3, h4⟩
  · simp only [Pipeline.run, Pipeline.runBody, Pipeline.collectData,
      Pipeline.processData, Pipeline.storeData, Pipeline.mainExit, Pipeline.tick,
      Pipeline.mapMetrics, Pipeline.emit, Pipeline.printSummary, h1, h2, h3,
      List.isEmpty_cons]
    refine ⟨rfl, ?_, ?_, ⟨t0 + 1 + 1 + 1 + 1 + 1 + 1, ?_⟩, ?_, ?_, rfl, hconv⟩
    · simp [initWorld]
    · intro name; simp [initWorld]
    · simp [PipelineMetrics.add_error, PipelineMetrics.start_stage,
        PipelineMetrics.end_stage, initWorld, PipelineMetrics.init,
        PipelineMetrics.setKey, PipelineMetrics.hasKey, PipelineMetrics.getKey]
    · simp
    · simp
  · simp only [Pipeline.run, Pipeline.runBody, Pipeline.collectData,
      Pipeline.processData, Pipeline.storeData, Pipeline.mainExit, Pipeline.tick,
      Pipeline.mapMetrics, Pipeline.emit, Pipeline.printSummary, h1, h2, h3, h4,
      List.isEmpty_cons]
    refine ⟨rfl, ?_, ?_, ⟨t0 + 1 + 1 + 1 + 1 + 1 + 1, ?_⟩, ?_, ?_, rfl, hconv⟩
    · simp [initWorld]
    · intro name; simp [initWorld]
    · simp [PipelineMetrics.add_error, PipelineMetrics.start_stage,
        PipelineMetrics.end_stage, initWorld, PipelineMetrics.init,
        PipelineMetrics.setKey, PipelineMetrics.hasKey, PipelineMetrics.getKey]
    · simp
    · simp

/-- Witness for C1 at the concrete environment envStorageDown. -/
theorem c1_storage_failure_fatal_witness :
    envStorageDown.collect = Except.ok (postA :: [postB]) ∧
    envStorageDown.process = Except.ok (procA :: []) ∧
    envStorageDown.insertRaw = Except.error errDb ∧
    ((Pipeline.run envStorageDown (initWorld 0)).1 = Except.error errDb ∧
      (Pipeline.mainExit envStorageDown (initWorld 0)).1 = 1) :=
  ⟨rfl, rfl, rfl,
    (c1_storage_failure_fatal envStorageDown 0 postA [postB] procA [] errDb
      rfl rfl (Or.inl rfl)).1,
    (c1_storage_failure_fatal envStorageDown 0 postA [postB] procA [] errDb
      rfl rfl (Or.inl rfl)).2.2.2.2.2.2.1⟩

/-- C10: For every run in which exactly one fatal stage (collection,
processing, or storage) raises, the failure is recorded twice in the
summary's error list — once under the failing stage's own name and once
under the stage name pipeline — so error_count is 2, not 1. -/
theorem c10_fatal_error_double_recorded (env : Env) (t0 : Nat) (e : PyError)
    (h : env.collect = Except.error e ∨
         (∃ r rs, env.collect = Except.ok (r :: rs) ∧ env.process = Except.error e) ∨
         (∃ r rs q qs, env.collect = Except.ok (r :: rs) ∧
            env.process = Except.ok (q :: qs) ∧
            (env.insertRaw = Except.error e ∨
             ∃ n, env.insertRaw = Except.ok n ∧ env.insertProcessed = Except.error e))) :
    ∃ s, (s = "collection" ∨ s = "processing" ∨ s = "storage") ∧
      ((Pipeline.run env (initWorld t0)).2.metrics.errors).map
          (fun x => (x.stage, x.error)) = [(s, e.msg), ("pipeline", e.msg)] ∧
      ((Pipeline.run env (initWorld t0)).2.metrics.get_summary).error_count = 2 := by
  rcases h with h | ⟨r, rs, h1, h2⟩ | ⟨r, rs, q, qs, h1, h2, h3⟩
  · refine ⟨"collection", Or.inl rfl, ?_, ?_⟩ <;>
      simp [Pipeline.run, Pipeline.runBody, Pipeline.collectData, Pipeline.tick,
        Pipeline.mapMetrics, Pipeline.emit, Pipeline.printSummary, h, initWorld,
        PipelineMetrics.init, PipelineMetrics.start_stage, PipelineMetrics.end_stage,
        PipelineMetrics.add_error, PipelineMetrics.get_summary,
        PipelineMetrics.setKey, PipelineMetrics.hasKey, PipelineMetrics.getKey]
  · refine ⟨"processing", Or.inr (Or.inl rfl), ?_, ?_⟩ <;>
      simp [Pipeline.run, Pipeline.runBody, Pipeline.collectData, Pipeline.processData,
        Pipeline.tick, Pipeline.mapMetrics, Pipeline.emit, Pipeline.printSummary,
        h1, h2, initWorld, PipelineMetrics.init, PipelineMetrics.start_stage,
        PipelineMetrics.end_stage, PipelineMetrics.add_error,
        PipelineMetrics.get_summary, PipelineMetrics.setKey, PipelineMetrics.hasKey,
        PipelineMetrics.getKey]
  · rcases h3 with h3 | ⟨n, h3, h4⟩
    · refine ⟨"storage", Or.inr (Or.inr rfl), ?_, ?_⟩ <;>
        simp [Pipeline.run, Pipeline.runBody, Pipeline.collectData,
          Pipeline.processData, Pipeline.storeData, Pipeline.tick,
          Pipeline.mapMetrics, Pipeline.emit, Pipeline.printSummary, h1, h2, h3,
          initWorld, PipelineMetrics.init, PipelineMetrics.start_stage,
          PipelineMetrics.end_stage, PipelineMetrics.add_error,
          PipelineMetrics.get_summary, PipelineMetrics.setKey,
          PipelineMetrics.hasKey, PipelineMetrics.getKey]
    · refine ⟨"storage", Or.inr (Or.inr rfl), ?_, ?_⟩ <;>
        simp [Pipeline.run, Pipeline.runBody, Pipeline.collectData,
          Pipeline.processData, Pipeline.storeData, Pipeline.tick,
          Pipeline.mapMetrics, Pipeline.emit, Pipeline.printSummary, h1, h2, h3, h4,
          initWorld, PipelineMetrics.init, PipelineMetrics.start_stage,
          PipelineMetrics.end_stage, PipelineMetrics.add_error,
          PipelineMetrics.get_summary, PipelineMetrics.setKey,
          PipelineMetrics.hasKey, PipelineMetrics.getKey]

/-- Witness for C10 at the concrete environment envStorageDown. -/
theorem c10_fatal_error_double_recorded_witness :
    (envStorageDown.collect = Except.ok (postA :: [postB]) ∧
      envStorageDown.process = Except.ok (procA :: []) ∧
      envStorageDown.insertRaw = Except.error errDb) ∧
    (∃ s, (s = "collection" ∨ s = "processing" ∨ s = "storage") ∧
      ((Pipeline.run envStorageDown (initWorld 0)).2.metrics.errors).map
          (fun x => (x.stage, x.error)) = [(s, errDb.msg), ("pipeline", errDb.msg)] ∧
      ((Pipeline.run envStorageDown (initWorld 0)).2.metrics.get_summary).error_count = 2) :=
  ⟨⟨rfl, rfl, rfl⟩,
    c10_fatal_error_double_recorded envStorageDown 0 errDb
      (Or.inr (Or.inr ⟨postA, [postB], procA, [],
        rfl, rfl, Or.inl rfl⟩))⟩

/-- C9 counterexample: the claim also asserts that calling endStage for a
name never started is flagged with a surfaced warning; but at the
concrete input (fresh metrics, stage name storage) the call both leaves
the durations untouched and emits no log message at all, so the
conjunction (no-op AND a warning is surfaced) is false — the condition is
silently swallowed. -/
theorem c9_counterexample :
    ¬ ((PipelineMetrics.end_stage PipelineMetrics.init "storage" 5).1 =
          PipelineMetrics.init ∧
       (PipelineMetrics.end_stage PipelineMetrics.init "storage" 5).2 ≠ []) := by
  decide

/-- C9 amended: for every stage name whose key is absent from
stage_durations (startStage never called for it), endStage is a silent
no-op: it does not crash, records no end or duration (the metrics value
is returned unchanged), and logs nothing — no warning is surfaced. -/
theorem c9_end_stage_unstarted_noop (m : PipelineMetrics) (name : String) (t : Nat)
    (h : PipelineMetrics.hasKey m.stage_durations name = false) :
    PipelineMetrics.end_stage m name t = (m, []) := by
  unfold PipelineMetrics.end_stage
  simp [h]

/-- Witness for the amended C9 at a concrete never-started stage name. -/
theorem c9_end_stage_unstarted_noop_witness :
    PipelineMetrics.hasKey PipelineMetrics.init.stage_durations "alerts" = false ∧
    PipelineMetrics.end_stage PipelineMetrics.init "alerts" 7 =
      (PipelineMetrics.init, []) :=
  ⟨by decide, c9_end_stage_unstarted_noop PipelineMetrics.init "alerts" 7 (by decide)⟩

/-- C8: record_metric never propagates a failure to its caller: whatever
the injected insert fault is, the call returns normally (Except.ok), the
connection count is restored, and the outcome run propagates to the
process is independent of the record_metric outcomes — pipeline
correctness is unaffected by metric-recording failures. -/
theorem c8_record_metric_swallows (fault : Option PyError) (db : DbState)
    (name : String) (value : Int) (md : List (String × String)) :
    (DatabaseHandler.record_metric fault db name value md).1 = Except.ok () ∧
    (DatabaseHandler.record_metric fault db name value md).2.held = db.held ∧
    (∀ env : Env, ∀ g : String → Except PyError Unit, ∀ w : World,
      (Pipeline.run { env with recordMetric := g } w).1 = (Pipeline.run env w).1) := by
  refine ⟨?_, ?_, fun env g w => run_fst_indep env g w⟩ <;>
  · unfold DatabaseHandler.record_metric DatabaseHandler.get_connection
      DatabaseHandler.return_connection
    by_cases hh : db.held ≥ 20
    · simp [hh]
    · cases fault <;> simp [hh]

/-- C7: every persistence-layer operation that acquires a connection from
the pool releases it on every exit path, including failing ones: after
any call to init_schema, insert_raw_posts, insert_processed_posts,
insert_alert, record_metric or get_unacknowledged_alerts, under any
fault injection, the number of held connections equals its pre-call
value. -/
theorem c7_connections_released (db : DbState) :
    (∀ fault, (DatabaseHandler.init_schema fault db).2.held = db.held) ∧
    (∀ fault posts, (DatabaseHandler.insert_raw_posts fault db posts).2.held = db.held) ∧
    (∀ fault posts mv,
      (DatabaseHandler.insert_processed_posts fault db posts mv).2.held = db.held) ∧
    (∀ fault pid ty sev msg rs now,
      (DatabaseHandler.insert_alert fault db pid ty sev msg rs now).2.held = db.held) ∧
    (∀ fault name v md,
      (DatabaseHandler.record_metric fault db name v md).2.held = db.held) ∧
    (∀ fault, (DatabaseHandler.get_unacknowledged_alerts fault db).2.held = db.held) := by
  by_cases hh : db.held ≥ 20
  · refine ⟨?_, ?_, ?_, ?_, ?_, ?_⟩ <;> intro fault <;>
    · intros
      simp [DatabaseHandler.init_schema, DatabaseHandler.insert_raw_posts,
          DatabaseHandler.insert_processed_posts, DatabaseHandler.insert_alert,
          DatabaseHandler.record_metric, DatabaseHandler.get_unacknowledged_alerts,
          DatabaseHandler.get_connection, DatabaseHandler.return_connection, hh]
  · refine ⟨?_, ?_, ?_, ?_, ?_, ?_⟩
    · intro fault
      cases fault <;>
        simp [DatabaseHandler.init_schema, DatabaseHandler.get_connection,
          DatabaseHandler.return_connection, hh]
    · intro fault posts
      unfold DatabaseHandler.insert_raw_posts DatabaseHandler.get_connection
        DatabaseHandler.return_connection
      rw [if_neg hh]
      cases hb : DatabaseHandler.execBatchRaw fault db.raw_posts posts <;> simp
    · intro fault posts mv
      unfold DatabaseHandler.insert_processed_posts DatabaseHandler.get_connection
        DatabaseHandler.return_connection
      rw [if_neg hh]
      cases hb : DatabaseHandler.execBatchProcessed fault mv db.processed_posts posts <;>
        simp
    · intro fault pid ty sev msg rs now
      cases fault <;>
        simp [DatabaseHandler.insert_alert, DatabaseHandler.get_connection,
          DatabaseHandler.return_connection, hh]
    · intro fault name v md
      cases fault <;>
        simp [DatabaseHandler.record_metric, DatabaseHandler.get_connection,
          DatabaseHandler.return_connection, hh]
    · intro fault
      cases fault <;>
        simp [DatabaseHandler.get_unacknowledged_alerts, DatabaseHandler.get_connection,
          DatabaseHandler.return_connection, hh]

/-- C3: the code contradicts its own docstring ("Returns: Number of
inserted posts", db_handler.py lines 184-186) and the claim.  At this
concrete input the store already holds postA and the batch is
[postB (new identifier), postA (duplicate)]: the conflict-skip part of
the claim holds (the duplicate is a no-op and identifier p1 keeps
exactly one row), one row is actually inserted (the table grows from 1
to 2 rows), yet insert_raw_posts returns 0, because cursor.rowcount
after psycopg2's execute_batch holds only the last statement's affected
count — 0 for the trailing conflict-skipped INSERT — not the number of
rows actually inserted. -/
theorem c3_insert_count_code_bug :
    (DatabaseHandler.insert_raw_posts (fun _ => none) dbOne [postB, postA]).1 =
      Except.ok 0 ∧
    (DatabaseHandler.insert_raw_posts (fun _ => none) dbOne [postB, postA]).2.raw_posts =
      [postA, postB] ∧
    dbOne.raw_posts.length + 1 =
      (DatabaseHandler.insert_raw_posts
        (fun _ => none) dbOne [postB, postA]).2.raw_posts.length :=
  ⟨rfl, rfl, rfl⟩

/-- C4 counterexample: the claim says a mid-batch non-conflict error
makes insert_raw_posts propagate a typed StorageError.  The source
defines no StorageError anywhere; the bare `raise` at db_handler.py line
229 re-raises the caught driver exception itself.  At this concrete
input (a batch whose second record violates a NOT NULL constraint) the
batch is rolled back, but the propagated exception is the original
NotNullViolation, whose type is not StorageError. -/
theorem c4_counterexample :
    (DatabaseHandler.insert_raw_posts batchFault dbOne [postB, postBad]).1 =
      Except.error errBatch ∧
    errBatch.ty ≠ "StorageError" ∧
    (DatabaseHandler.insert_raw_posts batchFault dbOne [postB, postBad]).2 = dbOne :=
  ⟨rfl, by decide, rfl⟩

/-- C4 amended: for every raw-post batch in which some record causes a
non-conflict error mid-batch, insert_raw_posts rolls back the entire
batch — the storage state is exactly what it was before the call — and
re-raises the original exception unchanged to the caller (the code
defines no typed StorageError); when the pool was not exhausted the
propagated exception is precisely the fault some record raised. -/
theorem c4_batch_rollback_propagates_original (fault : RawPost → Option PyError)
    (db : DbState) (posts : List RawPost) (e : PyError)
    (h : (DatabaseHandler.insert_raw_posts fault db posts).1 = Except.error e) :
    (DatabaseHandler.insert_raw_posts fault db posts).2 = db ∧
    (db.held < 20 → ∃ p ∈ posts, fault p = some e) := by
  unfold DatabaseHandler.insert_raw_posts DatabaseHandler.get_connection
    DatabaseHandler.return_connection at h ⊢
  by_cases hh : db.held ≥ 20
  · rw [if_pos hh] at h ⊢
    exact ⟨rfl, fun hlt => absurd hh (by omega)⟩
  · rw [if_neg hh] at h ⊢
    cases hb : DatabaseHandler.execBatchRaw fault db.raw_posts posts with
    | error e2 =>
        rw [hb] at h
        have he : e2 = e := by simpa using h
        subst he
        refine ⟨?_, fun _ => execBatchRaw_error_cause fault posts _ e2 hb⟩
        obtain ⟨sch, rp, pp, al, pm, hd⟩ := db
        simp
    | ok nm =>
        rw [hb] at h
        simp at h

/-- Witness for the amended C4 at the concrete poisoned batch. -/
theorem c4_batch_rollback_propagates_original_witness :
    (DatabaseHandler.insert_raw_posts batchFault dbOne [postB, postBad]).1 =
      Except.error errBatch ∧
    ((DatabaseHandler.insert_raw_posts batchFault dbOne [postB, postBad]).2 = dbOne ∧
      (dbOne.held < 20 → ∃ p ∈ [postB, postBad], batchFault p = some errBatch)) :=
  ⟨rfl,
    c4_batch_rollback_propagates_original batchFault dbOne [postB, postBad] errBatch
      rfl⟩
